import Mathlib

/-!
Shallow embedding of the GSMT Ver 7 frontend (src/frontend/js/app.js):
the symbol-selection and chart-data synchronization state machine, the
synthetic demo-data generator, chart option construction, and settings
persistence.  JavaScript floating-point numbers are modelled as
rationals (no claim below depends on rounding), `Math.random()` draws
are modelled as an explicit stream `rand : Nat -> Rat` consumed in
program order, `Date.now()` as an explicit `now : Int` (milliseconds),
and the two ES `Set`/`Map` state fields as duplicate-free lists
respectively association lists, with the insertion-order semantics of
the originals.
-/

/-- A toast notification as produced by showToast: message text plus the
severity string passed as the second argument. -/
structure Toast where
  message : String
  kind : String
deriving DecidableEq, Repr

/-- One synthetic series point: the object literal pushed in
generateDemoAnalysis (app.js lines 474-483).  The JS field `open` is
called `openPrice` here because `open` is a Lean keyword; the ISO
string `timestamp` duplicates `timestamp_ms` and is omitted. -/
structure SeriesPoint where
  timestamp_ms : Int
  openPrice : ℚ
  high : ℚ
  low : ℚ
  close : ℚ
  volume : Int
  percentage_change : ℚ
deriving DecidableEq, Repr

/-- Result of generateDemoAnalysis: the per-symbol data map (an
association list keyed by symbol, in JS object insertion order) and the
success flag. -/
structure AnalysisResult where
  data : List (String × List SeriesPoint)
  success : Bool

/-- getPeriodDays (app.js lines 495-501): the periodMap lookup with
default 1 (`periodMap[period] || 1`). -/
def getPeriodDays (period : String) : Nat :=
  if period = "24h" then 1
  else if period = "3d" then 3
  else if period = "1w" then 7
  else if period = "2w" then 14
  else if period = "1M" then 30
  else if period = "3M" then 90
  else if period = "6M" then 180
  else if period = "1Y" then 365
  else if period = "2Y" then 730
  else 1

/-- The inner `for (let i = 0; i < Math.min(50, days); i++)` loop of
generateDemoAnalysis (app.js lines 467-484).  `count` is the number of
remaining iterations, `i` the current loop index, `basePrice` the
mutable price variable, and `k` the index of the next draw from the
random stream (each iteration draws once for `change` and once for
`volume`, in that order). -/
def genPointsAux (rand : Nat → ℚ) (now : Int) (days : Nat) :
    Nat → Nat → ℚ → Nat → List SeriesPoint
  | 0, _, _, _ => []
  | count + 1, i, basePrice, k =>
    let change : ℚ := (rand k - 1/2) * (4/100)
    let bp : ℚ := basePrice * (1 + change)
    let start : ℚ := bp / (1 + change) ^ (i + 1)
    let pct : ℚ := ((bp - start) / start) * 100
    { timestamp_ms := now - ((days : Int) - (i : Int)) * 86400000
      openPrice := bp * (99/100)
      high := bp * (102/100)
      low := bp * (98/100)
      close := bp
      volume := ⌊rand (k + 1) * 10000000⌋
      percentage_change := pct } :: genPointsAux rand now days count (i + 1) bp (k + 2)

/-- The per-symbol body of generateDemoAnalysis (app.js lines 461-487):
seed a base price from one random draw (wide range when the symbol
starts with a caret, i.e. denotes an index), then run the point loop. -/
def genSymbolPoints (rand : Nat → ℚ) (now : Int) (days : Nat)
    (symbol : String) (k : Nat) : List SeriesPoint :=
  let basePrice : ℚ :=
    if symbol.startsWith "^" then rand k * 30000 + 5000 else rand k * 400 + 50
  genPointsAux rand now days (min 50 days) 0 basePrice (k + 1)

/-- JS object/Map key assignment `m[key] = v` (resp. `m.set(key, v)`) on
an association list: replace the value in place when the key is already
present, otherwise append at the end (insertion order is preserved, as
in JS). -/
def upsert (m : List (String × List SeriesPoint)) (key : String)
    (v : List SeriesPoint) : List (String × List SeriesPoint) :=
  if m.any (fun p => p.1 = key) then
    m.map (fun p => if p.1 = key then (key, v) else p)
  else m ++ [(key, v)]

/-- The `symbols.forEach` loop of generateDemoAnalysis: each symbol
consumes `1 + 2 * min 50 days` draws from the random stream and stores
its points under its key in the data object. -/
def generateDemoAnalysisAux (rand : Nat → ℚ) (now : Int) (days : Nat) :
    List String → Nat → List (String × List SeriesPoint) →
    List (String × List SeriesPoint)
  | [], _, acc => acc
  | s :: rest, k, acc =>
    generateDemoAnalysisAux rand now days rest (k + 1 + 2 * min 50 days)
      (upsert acc s (genSymbolPoints rand now days s k))

/-- generateDemoAnalysis (app.js lines 457-490): builds the per-symbol
data object and returns it together with `success: true`. -/
def generateDemoAnalysis (rand : Nat → ℚ) (now : Int)
    (symbols : List String) (period : String) : AnalysisResult :=
  { data := generateDemoAnalysisAux rand now (getPeriodDays period) symbols 0 []
    success := true }

/-- The mutable application state the claims are about:
`state.selectedSymbols` (a JS Set, modelled as its insertion-ordered
element list) and `state.chartData` (a JS Map, modelled as an
association list). -/
structure AppState where
  selectedSymbols : List String
  chartData : List (String × List SeriesPoint)

/-- The initial state: both collections empty (app.js constructor,
lines 11-13). -/
def initState : AppState := { selectedSymbols := [], chartData := [] }

/-- addSymbol (app.js lines 323-337): warn and leave the state alone if
the symbol is already selected or if 10 symbols are selected, otherwise
insert it.  Returns the new state and the toasts shown. -/
def addSymbol (st : AppState) (symbol : String) : AppState × List Toast :=
  if symbol ∈ st.selectedSymbols then
    (st, [{ message := symbol ++ " is already selected", kind := "warning" }])
  else if 10 ≤ st.selectedSymbols.length then
    (st, [{ message := "Maximum 10 symbols allowed", kind := "warning" }])
  else
    ({ st with selectedSymbols := st.selectedSymbols ++ [symbol] },
     [{ message := "Added " ++ symbol ++ " to analysis", kind := "success" }])

/-- removeSymbol (app.js lines 342-348): delete the symbol from the
selection Set and from the chartData Map (both deletes are no-ops on an
absent key), then toast. -/
def removeSymbol (st : AppState) (symbol : String) : AppState × List Toast :=
  ({ selectedSymbols := st.selectedSymbols.filter (fun s => s ≠ symbol)
     chartData := st.chartData.filter (fun p => p.1 ≠ symbol) },
   [{ message := "Removed " ++ symbol ++ " from analysis", kind := "info" }])

/-- handleClear (app.js lines 665-672): empty both collections. -/
def handleClear (_st : AppState) : AppState × List Toast :=
  ({ selectedSymbols := [], chartData := [] },
   [{ message := "Analysis cleared", kind := "info" }])

/-- The effect of `chartData.clear()` followed by `chartData.set(symbol,
data)` over the entries of a response data object (app.js lines 423-426
resp. 442-445): rebuild the Map from scratch. -/
def rebuildChartData (d : List (String × List SeriesPoint)) :
    List (String × List SeriesPoint) :=
  d.foldl (fun m p => upsert m p.1 p.2) []

/-- handleAnalyze in demo mode (app.js lines 385-452 with
`state.apiBaseUrl` unset): bail out with a warning when nothing is
selected; otherwise snapshot the selection, generate demo data for it,
and replace chartData wholesale with the response entries. -/
def handleAnalyze (st : AppState) (rand : Nat → ℚ) (now : Int)
    (period : String) : AppState × List Toast :=
  if st.selectedSymbols.length = 0 then
    (st, [{ message := "Please select at least one symbol", kind := "warning" }])
  else
    let analysisData := generateDemoAnalysis rand now st.selectedSymbols period
    ({ st with chartData := rebuildChartData analysisData.data },
     [{ message := "Analysis complete: " ++ toString st.selectedSymbols.length
          ++ " symbols processed", kind := "success" }])

/-- The user-triggered operations on the state machine.  `analyze`
carries the environment of its (demo-mode) run: the random stream and
the current clock value. -/
inductive Op where
  | add (symbol : String)
  | remove (symbol : String)
  | clear
  | analyze (rand : Nat → ℚ) (now : Int) (period : String)

/-- Whether an operation is an add or a remove. -/
def Op.isAddRemove : Op → Bool
  | Op.add _ => true
  | Op.remove _ => true
  | _ => false

/-- Dispatch one operation. -/
def applyOp (st : AppState) : Op → AppState × List Toast
  | Op.add s => addSymbol st s
  | Op.remove s => removeSymbol st s
  | Op.clear => handleClear st
  | Op.analyze rand now period => handleAnalyze st rand now period

/-- Run a sequence of operations from the initial (empty) state. -/
def runOps (ops : List Op) : AppState :=
  ops.foldl (fun st op => (applyOp st op).1) initState

/-! ## Chart option construction (app.js lines 506-611)

Only the fields the specification talks about are modelled: the title
text, and per series its name, its `[x, y]` data pairs and its colour.
The remaining option fields (tooltip, grid, axes, animation, line
style) are fixed literals independent of the state. -/

/-- One entry of the `series` array pushed in generateChartOption. -/
structure ChartSeries where
  name : String
  data : List (Int × ℚ)
  color : String
deriving DecidableEq, Repr

/-- The declarative chart option: title text plus series array. -/
structure ChartOption where
  titleText : String
  series : List ChartSeries
deriving DecidableEq, Repr

/-- The fixed 8-colour palette (app.js line 523). -/
def colors : List String :=
  ["#3b82f6", "#10b981", "#f59e0b", "#ef4444",
   "#8b5cf6", "#f97316", "#06b6d4", "#84cc16"]

/-- The `for (const [symbol, data] of chartData)` loop of
generateChartOption (app.js lines 527-550): push one line series per
entry when the chart type is percentage or price (y = percentage_change
resp. y = close); `colorIndex` is incremented for every entry either
way. -/
def buildSeries (chartType : String) :
    List (String × List SeriesPoint) → Nat → List ChartSeries
  | [], _ => []
  | p :: rest, colorIndex =>
    if chartType = "percentage" then
      { name := p.1
        data := p.2.map (fun pt => (pt.timestamp_ms, pt.percentage_change))
        color := colors.getD (colorIndex % colors.length) "" } ::
        buildSeries chartType rest (colorIndex + 1)
    else if chartType = "price" then
      { name := p.1
        data := p.2.map (fun pt => (pt.timestamp_ms, pt.close))
        color := colors.getD (colorIndex % colors.length) "" } ::
        buildSeries chartType rest (colorIndex + 1)
    else buildSeries chartType rest (colorIndex + 1)

/-- generateChartOption (app.js lines 522-594): title depends on the
chart type, series as built above. -/
def generateChartOption (chartType : String)
    (chartData : List (String × List SeriesPoint)) : ChartOption :=
  { titleText :=
      if chartType = "percentage" then "Percentage Change Analysis"
      else "Price Analysis"
    series := buildSeries chartType chartData 0 }

/-- getEmptyChartOption (app.js lines 599-611): placeholder title, no
series entry at all. -/
def getEmptyChartOption : ChartOption :=
  { titleText := "Select symbols to begin analysis", series := [] }

/-- The pure core of updateChart (app.js lines 506-517): the option the
chart instance is given, as a function of the current chartData and the
selected chart type. -/
def updateChartOption (chartType : String)
    (chartData : List (String × List SeriesPoint)) : ChartOption :=
  if chartData.length = 0 then getEmptyChartOption
  else generateChartOption chartType chartData

/-! ## Overlapping analysis responses (app.js lines 385-452)

While an `/analyze` fetch is awaited the event loop may start a second
handleAnalyze; each invocation, when its own response arrives, runs
`chartData.clear()` followed by `set` for every entry of *its* response
(lines 423-426) with no request tagging.  A response arrival is
therefore modelled as a wholesale replacement of chartData by that
response's data, and a schedule of arrivals as a fold in resolution
order. -/

/-- The effect of one analysis response arriving: lines 423-426 of
handleAnalyze, replacing chartData with the response's data object. -/
def applyResponse (st : AppState) (d : List (String × List SeriesPoint)) :
    AppState :=
  { st with chartData := rebuildChartData d }

/-- Apply analysis responses in the order in which they resolve. -/
def resolveResponses (st : AppState)
    (responses : List (List (String × List SeriesPoint))) : AppState :=
  responses.foldl applyResponse st

/-! ## Settings persistence (app.js lines 746-786)

The persisted blob is `JSON.stringify(state.settings)` under the
`gsmt-settings` key; loading parses it and overlays it onto the
defaults (`{ ...defaultSettings, ...JSON.parse(saved) }`).  JSON values
of the persisted schema are booleans and integers. -/

/-- A JSON value of the persisted settings schema. -/
inductive JsonVal where
  | bool (b : Bool)
  | num (n : Int)
deriving DecidableEq, Repr

/-- The settings record: autoRefresh flag and refresh interval in
seconds.  (The API base URL is persisted separately under its own key
and is not part of the `gsmt-settings` blob.) -/
structure Settings where
  autoRefresh : Bool
  refreshInterval : Int
deriving DecidableEq, Repr

/-- The defaults used by loadSettings (app.js lines 775-778). -/
def defaultSettings : Settings :=
  { autoRefresh := false, refreshInterval := 300 }

/-- saveSettings, persistence part (app.js line 758): the JSON object
written to storage, as an association list of its fields. -/
def saveSettingsBlob (s : Settings) : List (String × JsonVal) :=
  [("autoRefresh", JsonVal.bool s.autoRefresh),
   ("refreshInterval", JsonVal.num s.refreshInterval)]

/-- The object spread `{ ...defaultSettings, ...parsed }` of
loadSettings: each field takes the parsed value when the key is present
(with the right type), else the default. -/
def overlaySettings (kvs : List (String × JsonVal)) : Settings :=
  { autoRefresh :=
      match kvs.lookup "autoRefresh" with
      | some (JsonVal.bool b) => b
      | _ => defaultSettings.autoRefresh
    refreshInterval :=
      match kvs.lookup "refreshInterval" with
      | some (JsonVal.num n) => n
      | _ => defaultSettings.refreshInterval }

/-- loadSettings (app.js lines 774-786): absent or unparseable storage
(`none`) yields the defaults, otherwise the stored blob is overlaid
onto the defaults. -/
def loadSettings (stored : Option (List (String × JsonVal))) : Settings :=
  match stored with
  | none => defaultSettings
  | some kvs => overlaySettings kvs

/-! ## Helper lemmas about the synthetic generator -/

theorem genPointsAux_length (rand : Nat → ℚ) (now : Int) (days : Nat) :
    ∀ (count i : Nat) (bp : ℚ) (k : Nat),
      (genPointsAux rand now days count i bp k).length = count := by
  intro count
  induction count with
  | zero => intro i bp k; rfl
  | succ n ih => intro i bp k; simp [genPointsAux, ih]

theorem genPointsAux_map_timestamp (rand : Nat → ℚ) (now : Int) (days : Nat) :
    ∀ (count i : Nat) (bp : ℚ) (k : Nat),
      (genPointsAux rand now days count i bp k).map SeriesPoint.timestamp_ms
        = (List.range count).map
            (fun (j : Nat) => now - ((days : Int) - ((i : Int) + (j : Int))) * 86400000) := by
  intro count
  induction count with
  | zero => intro i bp k; rfl
  | succ n ih =>
    intro i bp k
    simp only [genPointsAux, List.map_cons, ih, List.range_succ_eq_map,
      List.map_map, List.cons.injEq]
    constructor
    · push_cast; ring
    · refine List.map_congr_left ?_
      intro a _
      simp only [Function.comp]
      push_cast
      ring

theorem genSymbolPoints_length (rand : Nat → ℚ) (now : Int) (days : Nat)
    (symbol : String) (k : Nat) :
    (genSymbolPoints rand now days symbol k).length = min 50 days := by
  unfold genSymbolPoints
  split <;> exact genPointsAux_length rand now days (min 50 days) 0 _ (k + 1)

theorem mem_upsert (m : List (String × List SeriesPoint)) (key : String)
    (v : List SeriesPoint) (p : String × List SeriesPoint)
    (hp : p ∈ upsert m key v) : p ∈ m ∨ p = (key, v) := by
  unfold upsert at hp
  split at hp
  · obtain ⟨q, hq, hfq⟩ := List.mem_map.mp hp
    by_cases hqk : q.1 = key
    · right
      rw [if_pos hqk] at hfq
      exact hfq.symm
    · left
      rw [if_neg hqk] at hfq
      exact hfq ▸ hq
  · rcases List.mem_append.mp hp with h | h
    · exact Or.inl h
    · right; simpa using h

theorem keys_mem_upsert (m : List (String × List SeriesPoint)) (key : String)
    (v : List SeriesPoint) (a : String) :
    a ∈ (upsert m key v).map Prod.fst ↔ a ∈ m.map Prod.fst ∨ a = key := by
  unfold upsert
  split
  · rename_i hmem
    have hk : key ∈ m.map Prod.fst := by
      obtain ⟨q, hq, hqk⟩ := List.any_eq_true.mp hmem
      exact List.mem_map.mpr ⟨q, hq, by simpa using hqk⟩
    have hkeys : (m.map (fun p => if p.1 = key then (key, v) else p)).map Prod.fst
        = m.map Prod.fst := by
      rw [List.map_map]
      refine List.map_congr_left ?_
      intro q _
      by_cases hqk : q.1 = key <;> simp [hqk]
    rw [hkeys]
    constructor
    · exact Or.inl
    · rintro (h | rfl)
      · exact h
      · exact hk
  · simp

theorem generateDemoAnalysisAux_values (rand : Nat → ℚ) (now : Int) (days : Nat)
    (P : List SeriesPoint → Prop)
    (hgen : ∀ (s : String) (k : Nat), P (genSymbolPoints rand now days s k)) :
    ∀ (syms : List String) (k : Nat) (acc : List (String × List SeriesPoint)),
      (∀ p ∈ acc, P p.2) →
      ∀ p ∈ generateDemoAnalysisAux rand now days syms k acc, P p.2 := by
  intro syms
  induction syms with
  | nil => intro k acc hacc p hp; exact hacc p hp
  | cons s rest ih =>
    intro k acc hacc p hp
    refine ih _ _ ?_ p hp
    intro q hq
    rcases mem_upsert acc s _ q hq with h | h
    · exact hacc q h
    · rw [h]; exact hgen s k

theorem keys_generateDemoAnalysisAux (rand : Nat → ℚ) (now : Int) (days : Nat) :
    ∀ (syms : List String) (k : Nat) (acc : List (String × List SeriesPoint))
      (a : String),
      (a ∈ (generateDemoAnalysisAux rand now days syms k acc).map Prod.fst ↔
        a ∈ acc.map Prod.fst ∨ a ∈ syms) := by
  intro syms
  induction syms with
  | nil => intro k acc a; simp [generateDemoAnalysisAux]
  | cons s rest ih =>
    intro k acc a
    unfold generateDemoAnalysisAux
    rw [ih, keys_mem_upsert]
    simp only [List.mem_cons]
    tauto

theorem keys_generateDemoAnalysis (rand : Nat → ℚ) (now : Int)
    (symbols : List String) (period : String) (a : String) :
    a ∈ (generateDemoAnalysis rand now symbols period).data.map Prod.fst ↔
      a ∈ symbols := by
  unfold generateDemoAnalysis
  rw [keys_generateDemoAnalysisAux]
  simp

theorem generateDemoAnalysis_values (rand : Nat → ℚ) (now : Int)
    (symbols : List String) (period : String) (P : List SeriesPoint → Prop)
    (hgen : ∀ (s : String) (k : Nat),
      P (genSymbolPoints rand now (getPeriodDays period) s k)) :
    ∀ p ∈ (generateDemoAnalysis rand now symbols period).data, P p.2 := by
  unfold generateDemoAnalysis
  exact generateDemoAnalysisAux_values rand now (getPeriodDays period) P hgen
    symbols 0 [] (by simp)

theorem getPeriodDays_pos (period : String) : 1 ≤ getPeriodDays period := by
  unfold getPeriodDays
  repeat' split
  all_goals decide

theorem keys_foldl_upsert :
    ∀ (d acc : List (String × List SeriesPoint)) (a : String),
      a ∈ (d.foldl (fun m p => upsert m p.1 p.2) acc).map Prod.fst ↔
        a ∈ acc.map Prod.fst ∨ a ∈ d.map Prod.fst := by
  intro d
  induction d with
  | nil => intro acc a; simp
  | cons q rest ih =>
    intro acc a
    simp only [List.foldl_cons, List.map_cons, List.mem_cons]
    rw [ih, keys_mem_upsert]
    tauto

theorem keys_rebuildChartData (d : List (String × List SeriesPoint)) (a : String) :
    a ∈ (rebuildChartData d).map Prod.fst ↔ a ∈ d.map Prod.fst := by
  unfold rebuildChartData
  rw [keys_foldl_upsert]
  simp

/-! ## State-machine invariants -/

/-- The selection invariant of claim C1: no duplicates, at most 10. -/
def selInv (st : AppState) : Prop :=
  st.selectedSymbols.Nodup ∧ st.selectedSymbols.length ≤ 10

/-- The chart invariant of claim C2: every chartData key is selected. -/
def chartInv (st : AppState) : Prop :=
  ∀ p ∈ st.chartData, p.1 ∈ st.selectedSymbols

theorem handleAnalyze_selectedSymbols (st : AppState) (rand : Nat → ℚ)
    (now : Int) (period : String) :
    (handleAnalyze st rand now period).1.selectedSymbols = st.selectedSymbols := by
  unfold handleAnalyze
  split <;> rfl

theorem selInv_applyOp (st : AppState) (op : Op) (h : selInv st) :
    selInv (applyOp st op).1 := by
  obtain ⟨hnd, hlen⟩ := h
  cases op with
  | add s =>
    show selInv (addSymbol st s).1
    unfold addSymbol
    split
    · exact ⟨hnd, hlen⟩
    · split
      · exact ⟨hnd, hlen⟩
      · rename_i hmem hsize
        constructor
        · simp only [List.nodup_append, List.nodup_cons, List.nodup_nil]
          exact ⟨hnd, by simp, by simpa [List.disjoint_singleton] using hmem⟩
        · simp only [List.length_append, List.length_cons, List.length_nil]
          omega
  | remove s =>
    show selInv (removeSymbol st s).1
    refine ⟨hnd.filter _, ?_⟩
    exact le_trans (List.length_filter_le _ _) hlen
  | clear => exact ⟨List.nodup_nil, Nat.zero_le 10⟩
  | analyze rand now period =>
    show selInv (handleAnalyze st rand now period).1
    rw [selInv, handleAnalyze_selectedSymbols]
    exact ⟨hnd, hlen⟩

theorem chartInv_applyOp (st : AppState) (op : Op) (h : chartInv st) :
    chartInv (applyOp st op).1 := by
  cases op with
  | add s =>
    show chartInv (addSymbol st s).1
    unfold addSymbol
    split
    · exact h
    · split
      · exact h
      · intro p hp
        exact List.mem_append_left _ (h p hp)
  | remove s =>
    show chartInv (removeSymbol st s).1
    intro p hp
    unfold removeSymbol at hp
    simp only [List.mem_filter, decide_eq_true_eq] at hp
    obtain ⟨hpm, hpne⟩ := hp
    simp only [removeSymbol, List.mem_filter, decide_eq_true_eq]
    exact ⟨h p hpm, hpne⟩
  | clear =>
    intro p hp
    simp only [applyOp, handleClear] at hp
    simp at hp
  | analyze rand now period =>
    show chartInv (handleAnalyze st rand now period).1
    unfold handleAnalyze
    split
    · exact h
    · intro p hp
      have hkey : p.1 ∈ (rebuildChartData
          (generateDemoAnalysis rand now st.selectedSymbols period).data).map Prod.fst :=
        List.mem_map.mpr ⟨p, hp, rfl⟩
      rw [keys_rebuildChartData, keys_generateDemoAnalysis] at hkey
      exact hkey

theorem runOps_inv (P : AppState → Prop)
    (hstep : ∀ st op, P st → P (applyOp st op).1) (hinit : P initState) :
    ∀ (ops : List Op), P (runOps ops) := by
  have haux : ∀ (ops : List Op) (st : AppState), P st →
      P (ops.foldl (fun st op => (applyOp st op).1) st) := by
    intro ops
    induction ops with
    | nil => intro st hst; exact hst
    | cons op rest ih =>
      intro st hst
      exact ih _ (hstep st op hst)
  intro ops
  exact haux ops initState hinit

/-! ## Timestamp structure of a one-week generation -/

theorem genSymbolPoints_one_week (rand : Nat → ℚ) (now : Int) (s : String)
    (k : Nat) :
    (genSymbolPoints rand now 7 s k).length = 7 ∧
    List.Chain' (fun a b => a.timestamp_ms < b.timestamp_ms ∧
      b.timestamp_ms = a.timestamp_ms + 86400000) (genSymbolPoints rand now 7 s k) ∧
    ((genSymbolPoints rand now 7 s k).map SeriesPoint.timestamp_ms).getLast?
      = some (now - 86400000) := by
  have hmin : min 50 7 = 7 := by decide
  have hts : (genSymbolPoints rand now 7 s k).map SeriesPoint.timestamp_ms
      = (List.range 7).map
          (fun (j : Nat) => now - ((7 : Int) - (((0 : Nat) : Int) + (j : Int))) * 86400000) := by
    unfold genSymbolPoints
    split <;> rw [hmin] <;>
      exact genPointsAux_map_timestamp rand now 7 7 0 _ (k + 1)
  refine ⟨?_, ?_, ?_⟩
  · unfold genSymbolPoints
    split <;> rw [genPointsAux_length, hmin]
  · refine (List.chain'_map (R := fun x y => x < y ∧ y = x + 86400000)
      SeriesPoint.timestamp_ms).mp ?_
    rw [hts, List.chain'_map]
    have h7 : List.range 7 = List.range (Nat.succ 6) := rfl
    rw [h7, List.chain'_range_succ]
    intro m hm
    push_cast
    constructor <;> omega
  · rw [hts]
    have h7 : List.range 7 = [0, 1, 2, 3, 4, 5, 6] := rfl
    rw [h7]
    simp only [List.map_cons, List.map_nil, List.getLast?_cons_cons,
      List.getLast?_singleton, Option.some.injEq]
    push_cast
    ring

/-! ## Shape of the series array built for the chart -/

theorem buildSeries_price (m : List (String × List SeriesPoint)) :
    ∀ i, (buildSeries "price" m i).map (fun s => (s.name, s.data)) =
      m.map (fun p => (p.1, p.2.map (fun pt => (pt.timestamp_ms, pt.close)))) := by
  induction m with
  | nil => intro i; rfl
  | cons p rest ih =>
    intro i
    unfold buildSeries
    rw [if_neg (by decide), if_pos rfl]
    simp only [List.map_cons, ih]

theorem buildSeries_percentage (m : List (String × List SeriesPoint)) :
    ∀ i, (buildSeries "percentage" m i).map (fun s => (s.name, s.data)) =
      m.map (fun p =>
        (p.1, p.2.map (fun pt => (pt.timestamp_ms, pt.percentage_change)))) := by
  induction m with
  | nil => intro i; rfl
  | cons p rest ih =>
    intro i
    unfold buildSeries
    rw [if_pos rfl]
    simp only [List.map_cons, ih]

/-! ## Resolution order of overlapping analysis responses -/

theorem resolveResponses_last :
    ∀ (responses : List (List (String × List SeriesPoint))) (st : AppState)
      (d : List (String × List SeriesPoint)),
      responses.getLast? = some d →
      (resolveResponses st responses).chartData = rebuildChartData d
  | [], _, _, h => by simp at h
  | [x], st, d, h => by
    have hx : x = d := by simpa using h
    subst hx
    rfl
  | x :: y :: rest, st, d, h => by
    have hlast : (y :: rest).getLast? = some d := by
      simpa [List.getLast?_cons_cons] using h
    have := resolveResponses_last (y :: rest) (applyResponse st x) d hlast
    simpa [resolveResponses, List.foldl_cons] using this

/-! ## The claims -/

/-- Claim C1: for every sequence of add/remove operations starting from the
empty selection, the selection set's size never exceeds 10 and it never
contains duplicate identifiers. -/
theorem C1_selection_bounded_nodup (ops : List Op)
    (_h : ∀ op ∈ ops, op.isAddRemove = true) :
    (runOps ops).selectedSymbols.length ≤ 10 ∧
      (runOps ops).selectedSymbols.Nodup :=
  have h := runOps_inv selInv selInv_applyOp ⟨List.nodup_nil, Nat.zero_le 10⟩ ops
  ⟨h.2, h.1⟩

/-- A sequence of twelve adds and one remove, for the C1 witness. -/
def opsC1 : List Op :=
  [Op.add "A", Op.add "B", Op.add "C", Op.add "D", Op.add "E", Op.add "F",
   Op.add "G", Op.add "H", Op.add "I", Op.add "J", Op.add "K", Op.add "L",
   Op.remove "C"]

theorem C1_witness :
    (runOps opsC1).selectedSymbols.length ≤ 10 ∧
      (runOps opsC1).selectedSymbols.Nodup :=
  C1_selection_bounded_nodup opsC1 (by decide)

/-- Claim C2: after every sequence of operations (add, remove, clear,
analyze) from the empty state, the key set of chartData is a subset of the
selection set. -/
theorem C2_chart_keys_subset_selection (ops : List Op)
    (p : String × List SeriesPoint) (hp : p ∈ (runOps ops).chartData) :
    p.1 ∈ (runOps ops).selectedSymbols :=
  runOps_inv chartInv chartInv_applyOp
    (fun q hq => absurd hq (List.not_mem_nil q)) ops p hp

/-- An add followed by a demo-mode analysis, for the C2 witness. -/
def opsC2 : List Op := [Op.add "A", Op.analyze (fun _ => 0) 0 "24h"]

theorem C2_witness :
    ((runOps opsC2).chartData.getD 0 ("", [])).1 ∈
      (runOps opsC2).selectedSymbols :=
  C2_chart_keys_subset_selection opsC2 _ (by exact List.Mem.head _)

/-- Response payload of the first-issued analysis request of the C3
scenario (the one that resolves second). -/
def firstIssuedData : List (String × List SeriesPoint) :=
  (generateDemoAnalysis (fun _ => 0) 0 ["^GSPC", "AAPL"] "24h").data

/-- Response payload of the second-issued analysis request of the C3
scenario (the one that resolves first). -/
def secondIssuedData : List (String × List SeriesPoint) :=
  (generateDemoAnalysis (fun _ => 0) 86400000 ["AAPL"] "24h").data

/-- Claim C3 counterexample: two overlapping analysis requests, the
second-issued one resolving first.  Responses are applied in resolution
order with no request tagging (app.js lines 423-426), so the final
chartData equals the rebuild of the FIRST-issued request's payload, which
differs from the second-issued one: the claim that the final map reflects
the most recently issued request is false. -/
theorem C3_counterexample :
    (resolveResponses initState [secondIssuedData, firstIssuedData]).chartData
        = rebuildChartData firstIssuedData ∧
      rebuildChartData firstIssuedData ≠ rebuildChartData secondIssuedData := by
  constructor
  · rfl
  · decide

/-- Claim C3 (amended): when overlapping analysis invocations resolve in
some order, the final chartData reflects the most recently RESOLVED
request (last write wins); responses of stale requests are not
discarded. -/
theorem C3_last_resolved_wins (st : AppState)
    (responses : List (List (String × List SeriesPoint)))
    (d : List (String × List SeriesPoint)) (h : responses.getLast? = some d) :
    (resolveResponses st responses).chartData = rebuildChartData d :=
  resolveResponses_last responses st d h

theorem C3_witness :
    (resolveResponses initState [secondIssuedData, firstIssuedData]).chartData
      = rebuildChartData firstIssuedData :=
  C3_last_resolved_wins initState [secondIssuedData, firstIssuedData]
    firstIssuedData rfl

/-- Claim C4 counterexample: with the clock `now = 0`, the one-week
generation's last timestamp is -86400000 (one full day before the current
time), not the current time 0. -/
theorem C4_counterexample :
    ((generateDemoAnalysis (fun _ => 0) 0 ["AAPL"] "1w").data.map
        (fun e => (e.2.map SeriesPoint.timestamp_ms).getLast?))
      = [some (-86400000)] ∧
    some ((-86400000 : Int)) ≠ some ((0 : Int)) := by
  constructor
  · rfl
  · decide

/-- Claim C4 (amended): for period token "1w", synthetic generation
produces exactly 7 points per symbol, with consecutive timestamps exactly
one day (86400000 ms) apart (hence strictly increasing), and the LAST
point's timestamp equal to the current time minus one day. -/
theorem C4_one_week_points (rand : Nat → ℚ) (now : Int)
    (symbols : List String) (e : String × List SeriesPoint)
    (he : e ∈ (generateDemoAnalysis rand now symbols "1w").data) :
    e.2.length = 7 ∧
    List.Chain' (fun a b => a.timestamp_ms < b.timestamp_ms ∧
      b.timestamp_ms = a.timestamp_ms + 86400000) e.2 ∧
    (e.2.map SeriesPoint.timestamp_ms).getLast? = some (now - 86400000) := by
  have h7 : getPeriodDays "1w" = 7 := rfl
  refine generateDemoAnalysis_values rand now symbols "1w"
    (fun pts => pts.length = 7 ∧
      List.Chain' (fun a b => a.timestamp_ms < b.timestamp_ms ∧
        b.timestamp_ms = a.timestamp_ms + 86400000) pts ∧
      (pts.map SeriesPoint.timestamp_ms).getLast? = some (now - 86400000))
    ?_ e he
  intro s k
  rw [h7]
  exact genSymbolPoints_one_week rand now s k

theorem C4_witness :
    (((generateDemoAnalysis (fun _ => 0) 0 ["AAPL"] "1w").data.getD 0
        ("", [])).2.map SeriesPoint.timestamp_ms).getLast?
      = some ((0 : Int) - 86400000) :=
  (C4_one_week_points (fun _ => 0) 0 ["AAPL"] _ (by exact List.Mem.head _)).2.2

/-- Claim C5: the period-token-to-day-count mapping is 24h to 1, 3d to 3,
1w to 7, 2w to 14, 1M to 30, 3M to 90, 6M to 180, 1Y to 365, 2Y to 730,
any unknown token to 1; synthetic generation produces exactly
min(50, dayCount) points per symbol, so "2Y" yields exactly 50 points. -/
theorem C5_period_mapping_and_cap :
    (getPeriodDays "24h" = 1 ∧ getPeriodDays "3d" = 3 ∧
     getPeriodDays "1w" = 7 ∧ getPeriodDays "2w" = 14 ∧
     getPeriodDays "1M" = 30 ∧ getPeriodDays "3M" = 90 ∧
     getPeriodDays "6M" = 180 ∧ getPeriodDays "1Y" = 365 ∧
     getPeriodDays "2Y" = 730) ∧
    (∀ period, period ∉ ["24h", "3d", "1w", "2w", "1M", "3M", "6M", "1Y", "2Y"] →
      getPeriodDays period = 1) ∧
    (∀ (rand : Nat → ℚ) (now : Int) (symbols : List String) (period : String)
      (e : String × List SeriesPoint),
      e ∈ (generateDemoAnalysis rand now symbols period).data →
      e.2.length = min 50 (getPeriodDays period)) ∧
    (∀ (rand : Nat → ℚ) (now : Int) (symbols : List String)
      (e : String × List SeriesPoint),
      e ∈ (generateDemoAnalysis rand now symbols "2Y").data →
      e.2.length = 50) := by
  have hgen : ∀ (rand : Nat → ℚ) (now : Int) (symbols : List String)
      (period : String) (e : String × List SeriesPoint),
      e ∈ (generateDemoAnalysis rand now symbols period).data →
      e.2.length = min 50 (getPeriodDays period) := by
    intro rand now symbols period e he
    exact generateDemoAnalysis_values rand now symbols period
      (fun pts => pts.length = min 50 (getPeriodDays period))
      (fun s k => genSymbolPoints_length rand now (getPeriodDays period) s k)
      e he
  refine ⟨by decide, ?_, hgen, ?_⟩
  · intro period hmem
    simp only [List.mem_cons, List.not_mem_nil, or_false, not_or] at hmem
    obtain ⟨h1, h2, h3, h4, h5, h6, h7, h8, h9⟩ := hmem
    simp [getPeriodDays, h1, h2, h3, h4, h5, h6, h7, h8, h9]
  · intro rand now symbols e he
    rw [hgen rand now symbols "2Y" e he]
    decide

theorem C5_witness :
    getPeriodDays "5d" = 1 ∧
    ((generateDemoAnalysis (fun _ => 0) 0 ["AAPL"] "2Y").data.getD 0
        ("", [])).2.length = 50 :=
  ⟨C5_period_mapping_and_cap.2.1 "5d" (by decide),
   C5_period_mapping_and_cap.2.2.2 (fun _ => 0) 0 ["AAPL"] _ (by exact List.Mem.head _)⟩

/-- Claim C6: the chart option computed from an empty chartData has no
series and the placeholder title; for a non-empty chartData it has exactly
one series per entry, whose y-values are the close prices for chart type
"price" and the percentage-change values for chart type "percentage". -/
theorem C6_chart_option_shape (chartType : String)
    (m : List (String × List SeriesPoint)) (hm : m ≠ []) :
    (updateChartOption chartType []).series = [] ∧
    (updateChartOption chartType []).titleText
      = "Select symbols to begin analysis" ∧
    (updateChartOption "price" m).series.map (fun s => (s.name, s.data))
      = m.map (fun p => (p.1, p.2.map (fun pt => (pt.timestamp_ms, pt.close)))) ∧
    (updateChartOption "percentage" m).series.map (fun s => (s.name, s.data))
      = m.map (fun p =>
          (p.1, p.2.map (fun pt => (pt.timestamp_ms, pt.percentage_change)))) := by
  have hlen : ¬ m.length = 0 := by
    simpa [List.length_eq_zero] using hm
  refine ⟨rfl, rfl, ?_, ?_⟩
  · rw [updateChartOption, if_neg hlen]
    exact buildSeries_price m 0
  · rw [updateChartOption, if_neg hlen]
    exact buildSeries_percentage m 0

theorem C6_witness :
    (updateChartOption "price" [("A", ([] : List SeriesPoint))]).series.map
        (fun s => (s.name, s.data))
      = [("A", ([] : List SeriesPoint))].map
          (fun p => (p.1, p.2.map (fun pt => (pt.timestamp_ms, pt.close)))) :=
  (C6_chart_option_shape "price" [("A", [])] (by decide)).2.2.1

/-- Claim C7: every validation failure (adding an already-selected
identifier, adding an 11th identifier when 10 are selected, analyzing with
an empty selection) produces exactly one warning toast and leaves the
state (selection and chartData) unchanged. -/
theorem C7_validation_failures :
    (∀ (st : AppState) (s : String), s ∈ st.selectedSymbols →
      addSymbol st s =
        (st, [{ message := s ++ " is already selected", kind := "warning" }])) ∧
    (∀ (st : AppState) (s : String), s ∉ st.selectedSymbols →
      st.selectedSymbols.length = 10 →
      addSymbol st s =
        (st, [{ message := "Maximum 10 symbols allowed", kind := "warning" }])) ∧
    (∀ (st : AppState) (rand : Nat → ℚ) (now : Int) (period : String),
      st.selectedSymbols = [] →
      handleAnalyze st rand now period =
        (st, [{ message := "Please select at least one symbol",
                kind := "warning" }])) := by
  refine ⟨?_, ?_, ?_⟩
  · intro st s h
    rw [addSymbol, if_pos h]
  · intro st s hmem hlen
    rw [addSymbol, if_neg hmem, if_pos (by omega)]
  · intro st rand now period h
    rw [handleAnalyze, if_pos (by simp [h])]

/-- A state with ten selected symbols, for the C7 witness. -/
def tenState : AppState :=
  { selectedSymbols := ["S0", "S1", "S2", "S3", "S4", "S5", "S6", "S7", "S8", "S9"]
    chartData := [] }

theorem C7_witness :
    addSymbol { selectedSymbols := ["A"], chartData := [] } "A"
      = ({ selectedSymbols := ["A"], chartData := [] },
         [{ message := "A is already selected", kind := "warning" }]) ∧
    addSymbol tenState "X"
      = (tenState, [{ message := "Maximum 10 symbols allowed", kind := "warning" }]) ∧
    handleAnalyze initState (fun _ => 0) 0 "1w"
      = (initState, [{ message := "Please select at least one symbol",
                       kind := "warning" }]) :=
  ⟨C7_validation_failures.1 _ "A" (by decide),
   C7_validation_failures.2.1 tenState "X" (by decide) (by decide),
   C7_validation_failures.2.2 initState (fun _ => 0) 0 "1w" rfl⟩

/-- Claim C8: removing an identifier deletes it from the selection (other
selected identifiers are kept), removes its chartData entry when present,
and leaves chartData unchanged when no entry for it is present. -/
theorem C8_remove_symbol (st : AppState) (s : String) :
    s ∉ (removeSymbol st s).1.selectedSymbols ∧
    (∀ x, x ≠ s →
      (x ∈ (removeSymbol st s).1.selectedSymbols ↔ x ∈ st.selectedSymbols)) ∧
    (∀ p, p ∈ (removeSymbol st s).1.chartData ↔ p ∈ st.chartData ∧ p.1 ≠ s) ∧
    (s ∉ st.chartData.map Prod.fst →
      (removeSymbol st s).1.chartData = st.chartData) := by
  refine ⟨?_, ?_, ?_, ?_⟩
  · simp [removeSymbol, List.mem_filter]
  · intro x hx
    simp [removeSymbol, List.mem_filter, hx]
  · intro p
    simp [removeSymbol, List.mem_filter]
  · intro habs
    show st.chartData.filter (fun p => p.1 ≠ s) = st.chartData
    rw [List.filter_eq_self]
    intro p hp
    simp only [ne_eq, decide_eq_true_eq]
    intro hps
    exact habs (List.mem_map.mpr ⟨p, hp, hps⟩)

/-- A two-symbol state with one chart entry, for the C8 witness. -/
def stateC8 : AppState :=
  { selectedSymbols := ["A", "B"], chartData := [("A", [])] }

theorem C8_witness :
    "A" ∉ (removeSymbol stateC8 "A").1.selectedSymbols ∧
    ("B" ∈ (removeSymbol stateC8 "A").1.selectedSymbols ↔
      "B" ∈ stateC8.selectedSymbols) ∧
    (("A", ([] : List SeriesPoint)) ∈ (removeSymbol stateC8 "A").1.chartData ↔
      ("A", ([] : List SeriesPoint)) ∈ stateC8.chartData ∧ "A" ≠ "A") ∧
    (removeSymbol stateC8 "B").1.chartData = stateC8.chartData :=
  ⟨(C8_remove_symbol stateC8 "A").1,
   (C8_remove_symbol stateC8 "A").2.1 "B" (by decide),
   (C8_remove_symbol stateC8 "A").2.2.1 ("A", []),
   (C8_remove_symbol stateC8 "B").2.2.2 (by decide)⟩

/-- Claim C9: saving settings and loading them back (fresh session) yields
a settings value equal to the saved one on every field of the persisted
schema (autoRefresh flag and refresh interval). -/
theorem C9_settings_roundtrip (s : Settings) :
    loadSettings (some (saveSettingsBlob s)) = s := by
  cases s
  rfl

/-- Claim C10: for every symbol list and period token, synthetic
generation reports success, its data's key set equals the input symbol
set, and every generated series is non-empty. -/
theorem C10_demo_analysis_total (rand : Nat → ℚ) (now : Int)
    (symbols : List String) (period : String) :
    (generateDemoAnalysis rand now symbols period).success = true ∧
    (∀ s, s ∈ (generateDemoAnalysis rand now symbols period).data.map Prod.fst
      ↔ s ∈ symbols) ∧
    (∀ e ∈ (generateDemoAnalysis rand now symbols period).data, e.2 ≠ []) := by
  refine ⟨rfl, keys_generateDemoAnalysis rand now symbols period, ?_⟩
  refine generateDemoAnalysis_values rand now symbols period
    (fun pts => pts ≠ []) ?_
  intro s k
  intro hnil
  have hl := genSymbolPoints_length rand now (getPeriodDays period) s k
  rw [hnil] at hl
  have hd := getPeriodDays_pos period
  simp only [List.length_nil] at hl
  omega

theorem C10_witness :
    (generateDemoAnalysis (fun _ => 0) 0 ["^GSPC"] "3d").success = true ∧
    ("^GSPC" ∈ (generateDemoAnalysis (fun _ => 0) 0 ["^GSPC"] "3d").data.map
        Prod.fst) ∧
    ((generateDemoAnalysis (fun _ => 0) 0 ["^GSPC"] "3d").data.getD 0
        ("", [])).2 ≠ [] :=
  ⟨(C10_demo_analysis_total (fun _ => 0) 0 ["^GSPC"] "3d").1,
   ((C10_demo_analysis_total (fun _ => 0) 0 ["^GSPC"] "3d").2.1 "^GSPC").mpr
     (by decide),
   (C10_demo_analysis_total (fun _ => 0) 0 ["^GSPC"] "3d").2.2 _ (by exact List.Mem.head _)⟩
